import Mathlib

/-!
Verification of the `foto4lb.py` batch photo-conversion pipeline.

This file gives a shallow embedding of the pipeline's core functions
(`main`'s scan/dispatch logic, `checkfor`, `processfile`) and proves or
refutes the specified properties about them.

External collaborators are modelled as explicit inputs:
* the EXIF metadata read (`PIL.Image.open` + `_getexif`) is an
  `Option Metadata` — `none` stands for any exception raised while
  opening the image or reading its EXIF data;
* `datetime.today()` is an injected `PyDateTime` value `now`
  (with a microsecond field, as Python datetimes have);
* `subprocess.call` is a function `Subproc` from the argument vector to
  `Except Unit Int` — `Except.error` stands for an `OSError` raised by
  the call (for instance the binary being absent), `Except.ok rc` for a
  normal return with exit status `rc`;
* `time.mktime` is an injected function `mk : PyDateTime → Int` (it only
  ever sees the six calendar fields, microseconds zeroed);
* `os.utime` is an `Except Unit Unit` outcome — `Except.error` stands
  for an `OSError` from the timestamp update.

Python strings are modelled as Lean `String` with `str.lower` restricted
to its ASCII behaviour; Python `int(...)` is modelled as decimal parsing
via `String.toInt?`.
-/

namespace Foto4lb

/-- Path separator; models `os.sep` on a POSIX host. -/
def sep : String := "/"

/-- Fixed name of the per-directory output directory (`outdir = 'foto4lb'`). -/
def outdir : String := "foto4lb"

/-- The recognized input extensions (`extensions = ('.jpg', '.jpeg', '.raw')`). -/
def extensions : List String := [".jpg", ".jpeg", ".raw"]

/-- ASCII model of Python `str.lower`: lower-case every character. -/
def pyLower (s : String) : String := String.mk (s.toList.map Char.toLower)

/-- Python `f.name.lower().endswith(extensions)`: with a tuple argument,
`str.endswith` tests whether the string ends with any of the given suffixes. -/
def matchesExt (n : String) : Bool := extensions.any (fun e => (pyLower n).endsWith e)

/-- One entry returned by `os.scandir`: a name and whether it is a regular file. -/
structure ScanEntry where
  name : String
  isFile : Bool
deriving Repr, DecidableEq

/-- One requested input directory as the filesystem presents it to `main`:
its path, whether `path/foto4lb` already exists (`os.path.exists`), and its
directory entries. -/
structure InputDir where
  path : String
  outdirExists : Bool
  entries : List ScanEntry
deriving Repr, DecidableEq

/-- The file list `main` builds for one directory:
`[f.name for f in scandir(path) if f.is_file() and f.name.lower().endswith(extensions)]`. -/
def matchedFiles (es : List ScanEntry) : List String :=
  (es.filter (fun e => e.isFile && matchesExt e.name)).map (fun e => e.name)

/-- The `pairs` list built by `main`'s scan loop: every requested directory in
which the output directory already exists is skipped (with a warning), every
other directory contributes `(path, matched file list)`. -/
def scanPairs (dirs : List InputDir) : List (String × List String) :=
  (dirs.filter (fun d => !d.outdirExists)).map (fun d => (d.path, matchedFiles d.entries))

/-- The paths for which the scan loop logs the
`"foto4lb" already exists in "path", skipping this path.` warning. -/
def skippedPaths (dirs : List InputDir) : List String :=
  (dirs.filter (fun d => d.outdirExists)).map (fun d => d.path)

/-- The `count` variable of `main`: total number of matched files over all
surviving directories. -/
def totalCount (dirs : List InputDir) : Nat :=
  ((scanPairs dirs).map (fun p => p.2.length)).sum

/-- One unit of conversion work, as packed into the generator
`((p, fn, args.width) for p, flist in pairs for fn in flist)`. -/
structure WorkItem where
  path : String
  name : String
  width : Int
deriving Repr, DecidableEq

/-- `fname = sep.join([path, name])`: the full input path of a work item. -/
def fname (it : WorkItem) : String := it.path ++ sep ++ it.name

/-- `oname = sep.join([path, outdir, name.lower()])`: the output path of a
work item. -/
def oname (it : WorkItem) : String := it.path ++ sep ++ outdir ++ sep ++ pyLower it.name

/-- Observable trace of `main`'s coordinator phase (lines after the `checkfor`
probe): which paths were warned about and skipped, whether the
`'nothing to do.'` early return was taken, which output directories were
created with `mkdir`, whether the `ThreadPoolExecutor` block was entered, and
the flat work-item list submitted to it. -/
structure MainTrace where
  warnings : List String
  loggedNothingToDo : Bool
  mkdirs : List String
  poolStarted : Bool
  workItems : List WorkItem
deriving Repr, DecidableEq

/-- The coordinator phase of `main`: scan the requested directories, early
return (`'nothing to do.'`) when `len(pairs) == 0`, otherwise create one
output directory per surviving directory and submit the flat work-item list
to the pool. -/
def mainRun (width : Int) (dirs : List InputDir) : MainTrace :=
  let prs := scanPairs dirs
  if prs.isEmpty then
    ⟨skippedPaths dirs, true, [], false, []⟩
  else
    ⟨skippedPaths dirs, false,
     prs.map (fun p => p.1 ++ sep ++ outdir),
     true,
     prs.flatMap (fun p => p.2.map (fun fn => ⟨p.1, fn, width⟩))⟩

/-- A Python `datetime` value: the six calendar fields plus microseconds.
`datetime(y, mo, d, h, mi, s)` has `micro = 0`; `datetime.today()` generally
does not. -/
structure PyDateTime where
  year : Nat
  month : Nat
  day : Nat
  hour : Nat
  minute : Nat
  second : Nat
  micro : Nat
deriving Repr, DecidableEq

/-- The value at whole-second precision: the six calendar fields with
microseconds dropped. This is exactly what `processfile` passes on to
`mktime` (a 9-tuple built from `dt.year .. dt.second`). -/
def secondsPart (d : PyDateTime) : PyDateTime :=
  ⟨d.year, d.month, d.day, d.hour, d.minute, d.second, 0⟩

/-- The EXIF tag dictionary `ld` built by `processfile`, a map from decoded
tag name to raw value, modelled as an association list with unique keys. -/
abbrev Metadata := List (String × String)

/-- Dictionary lookup `ld[t]` on the tag map. -/
def lookupTag (ld : Metadata) (t : String) : Option String :=
  (ld.find? (fun p => p.1 == t)).map (fun p => p.2)

/-- `t in ld.keys()`. -/
def hasTag (ld : Metadata) (t : String) : Bool := (lookupTag ld t).isSome

/-- The fixed candidate-tag set
`want = set(['DateTime', 'DateTimeOriginal', 'CreateDate', 'DateTimeDigitized'])`,
listed in source order. -/
def want : List String := ["DateTime", "DateTimeOriginal", "CreateDate", "DateTimeDigitized"]

/-- The members of `want` that are present in the map: the intersection
`want.intersection(set(ld.keys()))`. -/
def presentTags (ld : Metadata) : List String :=
  want.filter (fun t => hasTag ld t)

/-- `available = sorted(list(want.intersection(set(ld.keys()))))` followed by
taking `available[0]`: the lexicographically sorted intersection's head, or
`none` when the intersection is empty (in the code, `available[0]` then
raises `IndexError`, caught by the enclosing handler). -/
def selectedTag (ld : Metadata) : Option String :=
  (List.insertionSort (fun a b : String => a ≤ b) (presentTags ld)).head?

/-- Python leap-year rule used by `datetime`'s day-of-month validation. -/
def isLeap (y : Int) : Bool := y % 4 == 0 && (y % 100 != 0 || y % 400 == 0)

/-- Days in a month, as `datetime` validates `day`. -/
def daysInMonth (y mo : Int) : Int :=
  if mo = 2 then (if isLeap y then 29 else 28)
  else if mo = 4 ∨ mo = 6 ∨ mo = 9 ∨ mo = 11 then 30
  else 31

/-- The `datetime(year, month, day, hour, minute, second)` constructor:
validates the field ranges and yields a value with zero microseconds, or
`none` for the `ValueError` it raises on out-of-range fields. -/
def pyDatetime (y mo d h mi s : Int) : Option PyDateTime :=
  if 1 ≤ y ∧ y ≤ 9999 ∧ 1 ≤ mo ∧ mo ≤ 12 ∧ 1 ≤ d ∧ d ≤ daysInMonth y mo ∧
     0 ≤ h ∧ h ≤ 23 ∧ 0 ≤ mi ∧ mi ≤ 59 ∧ 0 ≤ s ∧ s ≤ 59 then
    some ⟨y.toNat, mo.toNat, d.toNat, h.toNat, mi.toNat, s.toNat, 0⟩
  else none

/-- Parsing of the selected tag value:
`fields = value.replace(' ', ':').split(':')` followed by
`datetime(int(fields[0]), ..., int(fields[5]))`. `none` stands for any
exception on this path (`IndexError` from too few fields, `ValueError` from
`int()` or from `datetime`'s range checks). Fields beyond the sixth are
ignored, as in the code. -/
def parseDT (v : String) : Option PyDateTime :=
  match (v.replace " " ":").splitOn ":" with
  | y :: mo :: d :: h :: mi :: s :: _ =>
    match y.toInt?, mo.toInt?, d.toInt?, h.toInt?, mi.toInt?, s.toInt? with
    | some yi, some moi, some di, some hi, some mii, some si =>
        pyDatetime yi moi di hi mii si
    | _, _, _, _, _, _ => none
  | _ => none

/-- The whole metadata-to-datetime path of `processfile`'s `try` block, for a
map that was read successfully: select a tag, look its value up and parse it.
`none` stands for any exception on the path. -/
def resolveFromMap (ld : Metadata) : Option PyDateTime :=
  match selectedTag ld with
  | none => none
  | some t =>
    match lookupTag ld t with
    | none => none
    | some v => parseDT v

/-- The timestamp resolver: `processfile`'s `try/except` around the metadata
read and parse. Any failure (`exif = none` for an exception while opening the
image or reading EXIF, or a failed select/parse) falls back to
`datetime.today()` — the injected `now` — and logs the
`'exception raised when reading the file time.'` warning; the Bool records
whether that warning was logged. -/
def resolveTimestamp (exif : Option Metadata) (now : PyDateTime) : PyDateTime × Bool :=
  match exif with
  | none => (now, true)
  | some ld =>
    match resolveFromMap ld with
    | none => (now, true)
    | some dt => (dt, false)

/-- The external-process collaborator: maps an argument vector to the outcome
of `subprocess.call` on it — `Except.error` for a raised `OSError` (binary
absent), `Except.ok rc` for a normal return with exit status `rc`. -/
def Subproc := List String → Except Unit Int

/-- The fixed argument vector `processfile` passes to `subprocess.call`. -/
def convertArgs (it : WorkItem) : List String :=
  ["convert", fname it, "-strip", "-resize", toString it.width, "-units",
   "PixelsPerInch", "-density", "300", "-unsharp", "2x0.5+0.7+0",
   "-quality", "80", oname it]

/-- Observable outcome of one `processfile` call that returns normally:
whether the fallback warning was logged, the `utime` call performed (output
path, access time, modification time), and the returned
`(identifier, status)` pair. -/
structure ProcOut where
  warned : Bool
  utimed : Option (String × Int × Int)
  result : String × Int
deriving Repr, DecidableEq

/-- The conversion worker `processfile`: resolve the timestamp (with
fallback), invoke `convert` via `subprocess.call`, return `(name, 2)` on a
non-zero exit status, otherwise set the output file's times to
`mktime` of the resolved timestamp's six fields and return `(fname, 0)`.
The result is `Except.error` when an exception escapes the worker: the
`subprocess.call` and `os.utime` calls sit outside the `try` block, so an
`OSError` from either propagates out of `processfile`. -/
def processfile (it : WorkItem) (exif : Option Metadata) (now : PyDateTime)
    (mk : PyDateTime → Int) (call : Subproc) (utm : Except Unit Unit) :
    Except Unit ProcOut :=
  let r := resolveTimestamp exif now
  match call (convertArgs it) with
  | Except.error e => Except.error e
  | Except.ok rp =>
    if rp ≠ 0 then Except.ok ⟨r.2, none, (it.name, 2)⟩
    else
      match utm with
      | Except.error e => Except.error e
      | Except.ok _ =>
        let modtime := mk (secondsPart r.1)
        Except.ok ⟨r.2, some (oname it, modtime, modtime), (fname it, 0)⟩

/-- Per-item collaborator outcomes for a batch run: the metadata read, the
current time at that worker's fallback, and the `utime` outcome. -/
structure ItemEnv where
  exif : Option Metadata
  now : PyDateTime
  utm : Except Unit Unit

/-- A batch: each submitted work item is processed by `processfile` with its
own collaborator outcomes; items share only `mktime` and the process
collaborator. -/
def runBatch (mk : PyDateTime → Int) (call : Subproc)
    (ps : List (WorkItem × ItemEnv)) : List (Except Unit ProcOut) :=
  ps.map (fun p => processfile p.1 p.2.exif p.2.now mk call p.2.utm)

/-- Outcome of `checkfor`: normal return, `sys.exit(1)` from the `OSError`
handler, or the uncaught `ValueError` raised on a command string with a
space. -/
inductive CheckOutcome
  | passed
  | exited
  | raisedValueError
deriving Repr, DecidableEq

/-- `checkfor(cmd, rv)` for a single-string command: raise `ValueError` on a
space, otherwise run the command; a raised `OSError` (command absent) or an
exit status different from `rv` leads to `sys.exit(1)`. -/
def checkfor (call : Subproc) (cmd : String) (rv : Int) : CheckOutcome :=
  if cmd.toList.contains ' ' then CheckOutcome.raisedValueError
  else
    match call [cmd] with
    | Except.error _ => CheckOutcome.exited
    | Except.ok rc => if rc = rv then CheckOutcome.passed else CheckOutcome.exited

/-- The availability probe `main` runs before any work:
`checkfor('mogrify', rv=1)`. -/
def startupCheck (call : Subproc) : CheckOutcome := checkfor call "mogrify" 1

/-- The stream of worker completions delivered by the pool: the workers for
the submitted items finish in the order given by the permutation `π` of
submission indices, each completion carrying its submission index and its
result (`f i` is the result of the item submitted at position `i`). -/
def completionStream (f : Nat → α) (π : List Nat) : List (Nat × α) :=
  π.map (fun i => (i, f i))

/-- `ThreadPoolExecutor.map`'s result iterator, as the coordinator's `for`
loop consumes it: per its documented contract it yields results in the order
the items were submitted, waiting on the future of submission index `i` at
position `i` regardless of when it completed in the stream. -/
def consumeResults (stream : List (Nat × α)) (n : Nat) : List (Option α) :=
  (List.range n).map (fun i => (stream.find? (fun p => p.1 == i)).map (fun p => p.2))

/-! ### Helper lemmas -/

/-- The skip warnings are logged in both branches of `mainRun`. -/
theorem mainRun_warnings (width : Int) (dirs : List InputDir) :
    (mainRun width dirs).warnings = skippedPaths dirs := by
  unfold mainRun
  by_cases h : (scanPairs dirs).isEmpty <;> simp [h]

/-- Every submitted work item's directory is the first component of one of
the scanned pairs. -/
theorem mem_workItems_path (width : Int) (dirs : List InputDir) (it : WorkItem)
    (h : it ∈ (mainRun width dirs).workItems) :
    ∃ pr ∈ scanPairs dirs, it.path = pr.1 := by
  unfold mainRun at h
  by_cases he : (scanPairs dirs).isEmpty
  · simp [he] at h
  · rw [if_neg (by simp [he])] at h
    rcases List.mem_flatMap.mp h with ⟨pr, hpr, hmem⟩
    rcases List.mem_map.mp hmem with ⟨fn, hfn, rfl⟩
    exact ⟨pr, hpr, rfl⟩

/-- In the completion stream of a pool run, the future of submission index
`i` resolves to `f i`: looking the index up in the stream yields its result,
whenever `i` completed at all. -/
theorem find_completionStream {α : Type} (f : Nat → α) (i : Nat) (π : List Nat)
    (h : i ∈ π) :
    (completionStream f π).find? (fun p => p.1 == i) = some (i, f i) := by
  induction π with
  | nil => cases h
  | cons j t ih =>
    by_cases hj : j = i
    · subst hj
      simp [completionStream, List.find?_cons]
    · have ht : i ∈ t := by
        rcases List.mem_cons.mp h with h1 | h1
        · exact absurd h1.symm hj
        · exact h1
      simpa [completionStream, List.find?_cons, hj] using ih ht

/-! ### C1 -/

/-- C1 counterexample: one requested directory, no output directory present,
no matching files at all. The combined work-item count is zero, yet `main`
still creates the output directory and still enters the pool block, because
its early return tests `len(pairs) == 0`, not `count == 0`. -/
theorem C1_count_zero_still_creates_dirs :
    totalCount [⟨"pics", false, []⟩] = 0 ∧
    (mainRun 886 [⟨"pics", false, []⟩]).mkdirs = ["pics" ++ sep ++ outdir] ∧
    (mainRun 886 [⟨"pics", false, []⟩]).poolStarted = true :=
  ⟨rfl, rfl, rfl⟩

/-- C1 amended: the early return is keyed on the surviving-directory list
being empty, not on the combined work-item count. When every requested
directory is skipped (so the `pairs` list is empty), `main` logs
`'nothing to do.'` and returns without creating any output directory and
without starting any workers. -/
theorem C1_empty_pairs_early_return (width : Int) (dirs : List InputDir)
    (h : scanPairs dirs = []) :
    (mainRun width dirs).loggedNothingToDo = true ∧
    (mainRun width dirs).mkdirs = [] ∧
    (mainRun width dirs).poolStarted = false ∧
    (mainRun width dirs).workItems = [] := by
  unfold mainRun
  simp [h]

/-- C1 witness: a single requested directory that already contains the
output directory; the whole scan survives nothing and `main` is a no-op. -/
theorem C1_empty_pairs_early_return_witness :
    (mainRun 886 [⟨"a", true, []⟩]).loggedNothingToDo = true ∧
    (mainRun 886 [⟨"a", true, []⟩]).mkdirs = [] ∧
    (mainRun 886 [⟨"a", true, []⟩]).poolStarted = false ∧
    (mainRun 886 [⟨"a", true, []⟩]).workItems = [] :=
  C1_empty_pairs_early_return 886 [⟨"a", true, []⟩] rfl

/-! ### C2 -/

/-- C2 counterexample: the `subprocess.call` invocation sits outside
`processfile`'s `try` block, so an `OSError` raised there (for instance when
the `convert` binary is absent) escapes the worker instead of resolving to a
`WorkResult` status: `processfile` itself raises, which `tp.map` re-raises in
the coordinator's result loop. -/
theorem C2_subprocess_oserror_escapes_worker :
    processfile ⟨"pics", "a.jpg", 886⟩ none ⟨2020, 1, 2, 3, 4, 5, 0⟩
      (fun _ => 0) (fun _ => Except.error ()) (Except.ok ()) = Except.error () :=
  rfl

/-- C2 amended: only the metadata-read and timestamp-resolution failures are
contained by the worker's `try/except` — whenever the subprocess call returns
normally (and `utime` does not raise on the success path), `processfile`
returns a `WorkResult` no matter how the metadata read or parse went. But an
`OSError` raised by the subprocess invocation itself escapes the worker
uncaught. -/
theorem C2_metadata_failures_contained
    (it : WorkItem) (exif : Option Metadata) (now : PyDateTime)
    (mk : PyDateTime → Int) (call : Subproc) (utm : Except Unit Unit) :
    (∀ rc : Int, call (convertArgs it) = Except.ok rc →
      (rc = 0 → utm = Except.ok ()) →
      ∃ out, processfile it exif now mk call utm = Except.ok out) ∧
    (call (convertArgs it) = Except.error () →
      processfile it exif now mk call utm = Except.error ()) := by
  constructor
  · intro rc hc h0
    unfold processfile
    rw [hc]
    by_cases hrc : rc = 0
    · subst hrc
      rw [h0 rfl]
      simp
    · simp [hrc]
  · intro hc
    unfold processfile
    rw [hc]

/-- C2 witness: with a metadata read that failed entirely (`exif = none`) and
a subprocess that returns normally, the worker still returns a result. -/
theorem C2_metadata_failures_contained_witness :
    ∃ out, processfile ⟨"pics", "a.jpg", 886⟩ none ⟨2020, 1, 2, 3, 4, 5, 0⟩
      (fun _ => 0) (fun _ => Except.ok 0) (Except.ok ()) = Except.ok out :=
  (C2_metadata_failures_contained ⟨"pics", "a.jpg", 886⟩ none ⟨2020, 1, 2, 3, 4, 5, 0⟩
    (fun _ => 0) (fun _ => Except.ok 0) (Except.ok ())).1 0 rfl (fun _ => rfl)

/-! ### C3 -/

/-- C3 counterexample: with two submitted items whose workers complete in
reverse order (completion permutation `[1, 0]`), the coordinator's loop over
`tp.map` still consumes the results in submission order `[r0, r1]`, which
differs from the arrival order `[r1, r0]` — so results are not consumed in
completion order. -/
theorem C3_not_consumed_in_completion_order :
    consumeResults (completionStream (fun i => 10 * i) [1, 0]) 2 =
      [some 0, some 10] ∧
    (completionStream (fun i => 10 * i) [1, 0]).map (fun p => some p.2) =
      [some 10, some 0] ∧
    ([some 0, some 10] : List (Option Nat)) ≠ [some 10, some 0] := by
  refine ⟨rfl, rfl, ?_⟩
  decide

/-- C3 amended: `ThreadPoolExecutor.map` yields results in the order the
items were submitted, regardless of the order the pool completes them — the
coordinator consumes and logs WorkResults in submission order, for every
completion permutation that delivers all submitted indices. -/
theorem C3_consumed_in_submission_order {α : Type} (f : Nat → α) (π : List Nat)
    (n : Nat) (hπ : ∀ i, i < n → i ∈ π) :
    consumeResults (completionStream f π) n =
      (List.range n).map (fun i => some (f i)) := by
  unfold consumeResults
  apply List.map_congr_left
  intro i hi
  rw [find_completionStream f i π (hπ i (List.mem_range.mp hi))]
  rfl

/-- C3 witness: three items completing in order `[2, 0, 1]` are consumed as
`[r0, r1, r2]`. -/
theorem C3_consumed_in_submission_order_witness :
    consumeResults (completionStream (fun i => 10 * i) [2, 0, 1]) 3 =
      (List.range 3).map (fun i => some (10 * i)) :=
  C3_consumed_in_submission_order (fun i => 10 * i) [2, 0, 1] 3 (by decide)

/-! ### C4 -/

/-- C4: whenever at least one of the four recognized timestamp tags is
present in the metadata map, the resolver selects the lexicographically
smallest present tag name; and the selection depends only on which candidate
tags are present (so repeated calls on the same map, or on any map with the
same candidate-tag presence, select the same tag). -/
theorem C4_resolver_picks_lex_smallest
    (ld : Metadata) (t0 : String) (h0 : t0 ∈ want) (hp : hasTag ld t0 = true) :
    ∃ m, selectedTag ld = some m ∧ m ∈ want ∧ hasTag ld m = true ∧
      (∀ t ∈ want, hasTag ld t = true → m ≤ t) ∧
      (∀ ld2 : Metadata, (∀ t ∈ want, hasTag ld t = hasTag ld2 t) →
        selectedTag ld2 = some m) := by
  have ht0 : t0 ∈ presentTags ld := List.mem_filter.mpr ⟨h0, hp⟩
  have hperm := List.perm_insertionSort (fun a b : String => a ≤ b) (presentTags ld)
  have hsorted :=
    List.sorted_insertionSort (fun a b : String => a ≤ b) (presentTags ld)
  cases hL : List.insertionSort (fun a b : String => a ≤ b) (presentTags ld) with
  | nil =>
    exfalso
    have hmem := hperm.mem_iff.mpr ht0
    rw [hL] at hmem
    cases hmem
  | cons m rest =>
    have hm_mem : m ∈ presentTags ld := by
      refine hperm.mem_iff.mp ?_
      rw [hL]
      exact List.mem_cons_self m rest
    have hm_filter := List.mem_filter.mp hm_mem
    have hsorted2 : List.Sorted (fun a b : String => a ≤ b) (m :: rest) := by
      rw [← hL]
      exact hsorted
    have hmin : ∀ t ∈ presentTags ld, m ≤ t := by
      intro t ht
      have hmem2 : t ∈ m :: rest := by
        rw [← hL]
        exact hperm.mem_iff.mpr ht
      rcases List.mem_cons.mp hmem2 with rfl | hrest
      · exact le_refl t
      · exact (List.sorted_cons.mp hsorted2).1 t hrest
    refine ⟨m, ?_, hm_filter.1, hm_filter.2, ?_, ?_⟩
    · unfold selectedTag
      rw [hL]
      rfl
    · intro t htw htag
      exact hmin t (List.mem_filter.mpr ⟨htw, htag⟩)
    · intro ld2 hsame
      have hpt : presentTags ld2 = presentTags ld := by
        unfold presentTags
        apply List.filter_congr
        intro t ht
        exact (hsame t ht).symm
      unfold selectedTag
      rw [hpt, hL]
      rfl

/-- C4 witness: a map holding `DateTimeOriginal` and `CreateDate` (with an
unrelated tag); the resolver must select `CreateDate`. -/
theorem C4_resolver_picks_lex_smallest_witness :
    ∃ m, selectedTag
        [("DateTimeOriginal", "2016:04:03 11:22:33"),
         ("Model", "X100"), ("CreateDate", "2015:01:01 00:00:00")] = some m ∧
      m ∈ want ∧
      hasTag [("DateTimeOriginal", "2016:04:03 11:22:33"),
        ("Model", "X100"), ("CreateDate", "2015:01:01 00:00:00")] m = true ∧
      (∀ t ∈ want,
        hasTag [("DateTimeOriginal", "2016:04:03 11:22:33"),
          ("Model", "X100"), ("CreateDate", "2015:01:01 00:00:00")] t = true →
        m ≤ t) ∧
      (∀ ld2 : Metadata,
        (∀ t ∈ want,
          hasTag [("DateTimeOriginal", "2016:04:03 11:22:33"),
            ("Model", "X100"), ("CreateDate", "2015:01:01 00:00:00")] t =
            hasTag ld2 t) →
        selectedTag ld2 = some m) :=
  C4_resolver_picks_lex_smallest
    [("DateTimeOriginal", "2016:04:03 11:22:33"),
     ("Model", "X100"), ("CreateDate", "2015:01:01 00:00:00")]
    "CreateDate" (by decide) (by decide)

/-! ### C5 -/

/-- C5: whenever the metadata read failed entirely (`exif = none`), or the
map contains none of the recognized tags, or the select/look-up/parse path
fails, the resolver returns the injected current time (so in particular its
whole-second part equals `now`'s whole-second part) and logs the fallback
warning rather than raising. -/
theorem C5_resolver_falls_back_to_now
    (exif : Option Metadata) (now : PyDateTime)
    (h : exif = none ∨ ∃ ld, exif = some ld ∧
          (presentTags ld = [] ∨ resolveFromMap ld = none)) :
    resolveTimestamp exif now = (now, true) ∧
    secondsPart (resolveTimestamp exif now).1 = secondsPart now ∧
    (resolveTimestamp exif now).2 = true := by
  have key : resolveTimestamp exif now = (now, true) := by
    rcases h with rfl | ⟨ld, rfl, hc⟩
    · rfl
    · have hnone : resolveFromMap ld = none := by
        rcases hc with hempty | hn
        · unfold resolveFromMap selectedTag
          rw [hempty]
          rfl
        · exact hn
      simp [resolveTimestamp, hnone]
  exact ⟨key, by rw [key], by rw [key]⟩

/-- C5 witness: a metadata map with no recognized tag, and a `now` with a
nonzero microsecond part. -/
theorem C5_resolver_falls_back_to_now_witness :
    resolveTimestamp (some [("Model", "X100")]) ⟨2020, 1, 2, 3, 4, 5, 999⟩ =
      (⟨2020, 1, 2, 3, 4, 5, 999⟩, true) ∧
    secondsPart (resolveTimestamp (some [("Model", "X100")])
        ⟨2020, 1, 2, 3, 4, 5, 999⟩).1 =
      secondsPart ⟨2020, 1, 2, 3, 4, 5, 999⟩ ∧
    (resolveTimestamp (some [("Model", "X100")]) ⟨2020, 1, 2, 3, 4, 5, 999⟩).2 =
      true :=
  C5_resolver_falls_back_to_now (some [("Model", "X100")])
    ⟨2020, 1, 2, 3, 4, 5, 999⟩ (Or.inr ⟨[("Model", "X100")], rfl, Or.inl rfl⟩)

/-! ### C6 -/

/-- C6: when the `convert` subprocess returns a non-zero exit status, the
worker returns normally with `(name, 2)` (ToolError) and performs no `utime`
call; and in a batch every slot's result is a function of that slot's own
item and collaborator outcomes alone, so one item's tool failure neither
aborts the batch nor affects any other item's result. -/
theorem C6_nonzero_exit_is_toolerror_without_utime
    (it : WorkItem) (exif : Option Metadata) (now : PyDateTime)
    (mk : PyDateTime → Int) (call : Subproc) (utm : Except Unit Unit) (rc : Int)
    (hc : call (convertArgs it) = Except.ok rc) (hrc : rc ≠ 0) :
    processfile it exif now mk call utm =
      Except.ok ⟨(resolveTimestamp exif now).2, none, (it.name, 2)⟩ ∧
    ∀ (ps : List (WorkItem × ItemEnv)) (j : Nat),
      (runBatch mk call ps)[j]? =
        (ps[j]?).map (fun p => processfile p.1 p.2.exif p.2.now mk call p.2.utm) := by
  constructor
  · unfold processfile
    rw [hc]
    simp [hrc]
  · intro ps j
    unfold runBatch
    exact List.getElem?_map _ _ _

/-- C6 witness: a concrete item whose subprocess exits with status 2. -/
theorem C6_nonzero_exit_is_toolerror_without_utime_witness :
    processfile ⟨"pics", "a.jpg", 886⟩ none ⟨2020, 1, 2, 3, 4, 5, 0⟩
        (fun _ => 0) (fun _ => Except.ok 2) (Except.ok ()) =
      Except.ok ⟨(resolveTimestamp none ⟨2020, 1, 2, 3, 4, 5, 0⟩).2, none,
        ("a.jpg", 2)⟩ ∧
    ∀ (ps : List (WorkItem × ItemEnv)) (j : Nat),
      (runBatch (fun _ => 0) (fun _ => Except.ok 2) ps)[j]? =
        (ps[j]?).map (fun p =>
          processfile p.1 p.2.exif p.2.now (fun _ => 0)
            (fun _ => Except.ok 2) p.2.utm) :=
  C6_nonzero_exit_is_toolerror_without_utime ⟨"pics", "a.jpg", 886⟩ none
    ⟨2020, 1, 2, 3, 4, 5, 0⟩ (fun _ => 0) (fun _ => Except.ok 2) (Except.ok ())
    2 rfl (by decide)

/-! ### C7 -/

/-- C7: when the `convert` subprocess exits with status zero (and `utime`
itself does not raise), the worker sets the output file's access and
modification times to one and the same value — `mktime` of the resolved
timestamp's six calendar fields, microseconds dropped — and returns
`(fname, 0)` (Success). The value depends only on the metadata and the
`now` read during resolution, not on any later wall-clock reading. -/
theorem C7_success_sets_both_times_to_resolved
    (it : WorkItem) (exif : Option Metadata) (now : PyDateTime)
    (mk : PyDateTime → Int) (call : Subproc)
    (hc : call (convertArgs it) = Except.ok 0) :
    processfile it exif now mk call (Except.ok ()) =
      Except.ok ⟨(resolveTimestamp exif now).2,
        some (oname it, mk (secondsPart (resolveTimestamp exif now).1),
          mk (secondsPart (resolveTimestamp exif now).1)),
        (fname it, 0)⟩ := by
  unfold processfile
  rw [hc]
  simp

/-- C7 witness: a concrete successful conversion; `mktime` is instantiated
with a function that reads the year, showing the timestamp flows through. -/
theorem C7_success_sets_both_times_to_resolved_witness :
    processfile ⟨"pics", "a.jpg", 886⟩
        (some [("DateTime", "2016:04:03 11:22:33")]) ⟨2020, 1, 2, 3, 4, 5, 0⟩
        (fun d => (d.year : Int)) (fun _ => Except.ok 0) (Except.ok ()) =
      Except.ok ⟨(resolveTimestamp (some [("DateTime", "2016:04:03 11:22:33")])
          ⟨2020, 1, 2, 3, 4, 5, 0⟩).2,
        some (oname ⟨"pics", "a.jpg", 886⟩,
          (fun d => (d.year : Int))
            (secondsPart (resolveTimestamp
              (some [("DateTime", "2016:04:03 11:22:33")])
              ⟨2020, 1, 2, 3, 4, 5, 0⟩).1),
          (fun d => (d.year : Int))
            (secondsPart (resolveTimestamp
              (some [("DateTime", "2016:04:03 11:22:33")])
              ⟨2020, 1, 2, 3, 4, 5, 0⟩).1)),
        (fname ⟨"pics", "a.jpg", 886⟩, 0)⟩ :=
  C7_success_sets_both_times_to_resolved ⟨"pics", "a.jpg", 886⟩
    (some [("DateTime", "2016:04:03 11:22:33")]) ⟨2020, 1, 2, 3, 4, 5, 0⟩
    (fun d => (d.year : Int)) (fun _ => Except.ok 0) rfl

/-! ### C8 -/

/-- C8: a requested directory in which `foto4lb` already exists is skipped
with a warning and contributes no scan pair and no work item, while every
other requested directory still contributes its pair. (The scan is total:
no exception is raised for a skipped directory — it is handled by the
`continue` branch.) The `huniq` hypothesis rules out two distinct requested
entries sharing one path. -/
theorem C8_existing_outdir_dir_skipped
    (width : Int) (dirs : List InputDir) (d : InputDir)
    (hd : d ∈ dirs) (hex : d.outdirExists = true)
    (huniq : ∀ d2 ∈ dirs, d2.path = d.path → d2 = d) :
    d.path ∈ (mainRun width dirs).warnings ∧
    (∀ pr ∈ scanPairs dirs, pr.1 ≠ d.path) ∧
    (∀ it ∈ (mainRun width dirs).workItems, it.path ≠ d.path) ∧
    (∀ d2 ∈ dirs, d2.outdirExists = false →
      (d2.path, matchedFiles d2.entries) ∈ scanPairs dirs) := by
  have hwarn : d.path ∈ skippedPaths dirs := by
    unfold skippedPaths
    exact List.mem_map.mpr ⟨d, List.mem_filter.mpr ⟨hd, hex⟩, rfl⟩
  have hpairs : ∀ pr ∈ scanPairs dirs, pr.1 ≠ d.path := by
    intro pr hpr
    unfold scanPairs at hpr
    rcases List.mem_map.mp hpr with ⟨d2, hd2, rfl⟩
    have hd2f := List.mem_filter.mp hd2
    intro heq
    have hdd : d2 = d := huniq d2 hd2f.1 heq
    have hneg := hd2f.2
    rw [hdd, hex] at hneg
    simp at hneg
  refine ⟨by rw [mainRun_warnings]; exact hwarn, hpairs, ?_, ?_⟩
  · intro it hit
    rcases mem_workItems_path width dirs it hit with ⟨pr, hpr, hpath⟩
    rw [hpath]
    exact hpairs pr hpr
  · intro d2 hd2 hne
    unfold scanPairs
    refine List.mem_map.mpr ⟨d2, List.mem_filter.mpr ⟨hd2, ?_⟩, rfl⟩
    simp [hne]

/-- C8 witness: two requested directories; the first already contains the
output directory, the second does not. -/
theorem C8_existing_outdir_dir_skipped_witness :
    "a" ∈ (mainRun 886
      [⟨"a", true, [⟨"x.jpg", true⟩]⟩, ⟨"b", false, [⟨"y.jpg", true⟩]⟩]).warnings ∧
    (∀ pr ∈ scanPairs
        [⟨"a", true, [⟨"x.jpg", true⟩]⟩, ⟨"b", false, [⟨"y.jpg", true⟩]⟩],
      pr.1 ≠ "a") ∧
    (∀ it ∈ (mainRun 886
        [⟨"a", true, [⟨"x.jpg", true⟩]⟩, ⟨"b", false, [⟨"y.jpg", true⟩]⟩]).workItems,
      it.path ≠ "a") ∧
    (∀ d2 ∈ ([⟨"a", true, [⟨"x.jpg", true⟩]⟩,
        ⟨"b", false, [⟨"y.jpg", true⟩]⟩] : List InputDir),
      d2.outdirExists = false →
      (d2.path, matchedFiles d2.entries) ∈ scanPairs
        [⟨"a", true, [⟨"x.jpg", true⟩]⟩, ⟨"b", false, [⟨"y.jpg", true⟩]⟩]) :=
  C8_existing_outdir_dir_skipped 886
    [⟨"a", true, [⟨"x.jpg", true⟩]⟩, ⟨"b", false, [⟨"y.jpg", true⟩]⟩]
    ⟨"a", true, [⟨"x.jpg", true⟩]⟩ (by decide) rfl (by decide)

/-! ### C9 -/

/-- C9: the worker's result identifier is not uniform across statuses — a
ToolError result carries the bare file name while a Success result carries
the full input path — and for a work item with a non-empty directory path
the two identifiers differ. -/
theorem C9_identifier_differs_by_status
    (it : WorkItem) (exif : Option Metadata) (now : PyDateTime)
    (mk : PyDateTime → Int) (callFail callOk : Subproc) (rc : Int)
    (hf : callFail (convertArgs it) = Except.ok rc) (hrc : rc ≠ 0)
    (hk : callOk (convertArgs it) = Except.ok 0)
    (_hpath : it.path ≠ "") :
    processfile it exif now mk callFail (Except.ok ()) =
      Except.ok ⟨(resolveTimestamp exif now).2, none, (it.name, 2)⟩ ∧
    processfile it exif now mk callOk (Except.ok ()) =
      Except.ok ⟨(resolveTimestamp exif now).2,
        some (oname it, mk (secondsPart (resolveTimestamp exif now).1),
          mk (secondsPart (resolveTimestamp exif now).1)),
        (fname it, 0)⟩ ∧
    it.name ≠ fname it := by
  refine ⟨?_, ?_, ?_⟩
  · unfold processfile
    rw [hf]
    simp [hrc]
  · unfold processfile
    rw [hk]
    simp
  · intro heq
    have hlen := congrArg String.length heq
    simp [fname, sep, String.length_append] at hlen
    exact absurd hlen.2 (by decide)

/-- C9 witness: one concrete work item run once against a failing tool and
once against a succeeding one. -/
theorem C9_identifier_differs_by_status_witness :
    processfile ⟨"pics", "a.jpg", 886⟩ none ⟨2020, 1, 2, 3, 4, 5, 0⟩ (fun _ => 0)
        (fun _ => Except.ok 2) (Except.ok ()) =
      Except.ok ⟨(resolveTimestamp none ⟨2020, 1, 2, 3, 4, 5, 0⟩).2, none,
        ("a.jpg", 2)⟩ ∧
    processfile ⟨"pics", "a.jpg", 886⟩ none ⟨2020, 1, 2, 3, 4, 5, 0⟩ (fun _ => 0)
        (fun _ => Except.ok 0) (Except.ok ()) =
      Except.ok ⟨(resolveTimestamp none ⟨2020, 1, 2, 3, 4, 5, 0⟩).2,
        some (oname ⟨"pics", "a.jpg", 886⟩,
          (fun _ => (0 : Int)) (secondsPart
            (resolveTimestamp none ⟨2020, 1, 2, 3, 4, 5, 0⟩).1),
          (fun _ => (0 : Int)) (secondsPart
            (resolveTimestamp none ⟨2020, 1, 2, 3, 4, 5, 0⟩).1)),
        (fname ⟨"pics", "a.jpg", 886⟩, 0)⟩ ∧
    ("a.jpg" : String) ≠ fname ⟨"pics", "a.jpg", 886⟩ :=
  C9_identifier_differs_by_status ⟨"pics", "a.jpg", 886⟩ none
    ⟨2020, 1, 2, 3, 4, 5, 0⟩ (fun _ => 0) (fun _ => Except.ok 2)
    (fun _ => Except.ok 0) 2 rfl (by decide) rfl (by decide)

/-! ### C10 -/

/-- C10: the startup probe checks a different binary (`mogrify`, expected
exit code 1) than the one each worker invokes (`convert`). On a host where
`mogrify` is present (exiting 1 when run bare) but `convert` is absent
(`subprocess.call` raises `OSError`), the startup check passes and every
dispatched work item's subprocess invocation then fails — here by an
exception escaping `processfile`. -/
theorem C10_probe_and_worker_binaries_differ
    (call : Subproc)
    (hm : ∀ args : List String, args.head? = some "mogrify" →
      call args = Except.ok 1)
    (hcv : ∀ args : List String, args.head? = some "convert" →
      call args = Except.error ()) :
    "mogrify" ≠ "convert" ∧
    startupCheck call = CheckOutcome.passed ∧
    ∀ (it : WorkItem) (exif : Option Metadata) (now : PyDateTime)
      (mk : PyDateTime → Int) (utm : Except Unit Unit),
      (convertArgs it).head? = some "convert" ∧
      processfile it exif now mk call utm = Except.error () := by
  refine ⟨by decide, ?_, ?_⟩
  · unfold startupCheck checkfor
    rw [hm ["mogrify"] rfl]
    rfl
  · intro it exif now mk utm
    refine ⟨rfl, ?_⟩
    unfold processfile
    rw [hcv (convertArgs it) rfl]

/-- C10 witness: the concrete host environment where running `mogrify` bare
exits 1 and any other invocation raises. -/
theorem C10_probe_and_worker_binaries_differ_witness :
    "mogrify" ≠ "convert" ∧
    startupCheck (fun args => if args.head? = some "mogrify" then Except.ok 1
      else Except.error ()) = CheckOutcome.passed ∧
    ((convertArgs ⟨"pics", "a.jpg", 886⟩).head? = some "convert" ∧
      processfile ⟨"pics", "a.jpg", 886⟩ none ⟨2020, 1, 2, 3, 4, 5, 0⟩
        (fun _ => 0)
        (fun args => if args.head? = some "mogrify" then Except.ok 1
          else Except.error ())
        (Except.ok ()) = Except.error ()) := by
  have h := C10_probe_and_worker_binaries_differ
    (fun args => if args.head? = some "mogrify" then Except.ok 1
      else Except.error ())
    (fun args ha => by
      show (if args.head? = some "mogrify" then Except.ok 1 else Except.error ()) =
        Except.ok 1
      rw [ha, if_pos rfl])
    (fun args ha => by
      show (if args.head? = some "mogrify" then Except.ok 1 else Except.error ()) =
        Except.error ()
      rw [ha, if_neg (by decide)])
  exact ⟨h.1, h.2.1,
    h.2.2 ⟨"pics", "a.jpg", 886⟩ none ⟨2020, 1, 2, 3, 4, 5, 0⟩ (fun _ => 0)
      (Except.ok ())⟩

end Foto4lb
